import Mathlib

/-!
Verification development for the freqtrade-mcp server.

The Python module under verification exposes Freqtrade REST endpoints as MCP
tools.  Strings are embedded as `List Char`; the process-wide TRADING_MODE
environment value is a `TradingMode` parameter; the remote REST client is a
record of (pure) per-endpoint responses, with `Except` modelling raised
exceptions.  Every tool returns its payload together with the list of remote
endpoint invocations it attempted, in order.
-/

/-- The process-wide TRADING_MODE configuration value (module line 25). -/
inductive TradingMode where
  | spot
  | futures
deriving DecidableEq

/-- Python `s.replace(":USDT", repl)`: every occurrence of the pattern
`":USDT"` is replaced left to right, non-overlapping (used at module lines
360, 564 and 688). -/
def replaceColonUSDT (repl : List Char) : List Char → List Char
  | ':' :: 'U' :: 'S' :: 'D' :: 'T' :: rest => repl ++ replaceColonUSDT repl rest
  | c :: rest => c :: replaceColonUSDT repl rest
  | [] => []

/-- Python `str.strip()`: drop whitespace from both ends. -/
def pyStrip (s : List Char) : List Char :=
  ((s.dropWhile Char.isWhitespace).reverse.dropWhile Char.isWhitespace).reverse

/-- Python `str.lower()` (ASCII case folding suffices for the uses here). -/
def pyLower (s : List Char) : List Char :=
  s.map Char.toLower

/-- `_convert_symbol_format` (module lines 341-382), with the process-wide
TRADING_MODE made explicit.  Python `a in b` on strings is substring
containment, `endswith` is the suffix test, `symbol[:-4]` keeps all but the
last four characters. -/
def convert_symbol_format (mode : TradingMode) (symbol : List Char) : List Char :=
  if "/USDT:USDT".toList <:+: symbol then
    if mode = TradingMode.spot then replaceColonUSDT [] symbol else symbol
  else if ("/USDT".toList <:+: symbol) ∧ ¬(":USDT".toList <:+: symbol) then
    if mode = TradingMode.futures then symbol ++ ":USDT".toList else symbol
  else if ("USDT".toList <:+ symbol) ∧ '/' ∉ symbol ∧ ':' ∉ symbol then
    if mode = TradingMode.futures then symbol.take (symbol.length - 4) ++ "/USDT:USDT".toList
    else symbol.take (symbol.length - 4) ++ "/USDT".toList
  else if mode = TradingMode.futures ∧ ¬(":USDT".toList <:+: symbol) then
    symbol ++ ":USDT".toList
  else symbol

/-- The five-rule reference normalizer exactly as the specification words it
(spec section 4.1), first match wins.  Rule 1 strips the `":USDT"` suffix:
when the string ends with `":USDT"` the last five characters are removed,
otherwise there is no suffix to strip and the string is left unchanged. -/
def normalizeSpec (mode : TradingMode) (s : List Char) : List Char :=
  if ("/USDT:USDT".toList <:+: s) ∧ mode = TradingMode.spot then
    if ":USDT".toList <:+ s then s.take (s.length - 5) else s
  else if ("/USDT:USDT".toList <:+: s) ∧ mode = TradingMode.futures then s
  else if ("/USDT".toList <:+: s) ∧ ¬(":USDT".toList <:+: s) then
    if mode = TradingMode.futures then s ++ ":USDT".toList else s
  else if '/' ∉ s ∧ ':' ∉ s ∧ ("USDT".toList <:+ s) then
    if mode = TradingMode.futures then s.take (s.length - 4) ++ "/USDT:USDT".toList
    else s.take (s.length - 4) ++ "/USDT".toList
  else if mode = TradingMode.futures ∧ ¬(":USDT".toList <:+: s) then s ++ ":USDT".toList
  else s

/-- The five-rule reference normalizer with rule 1 amended to match the code:
in spot mode a string containing `"/USDT:USDT"` has every occurrence of
`":USDT"` removed (Python replace semantics), not only a trailing one. -/
def normalizeSpecFixed (mode : TradingMode) (s : List Char) : List Char :=
  if ("/USDT:USDT".toList <:+: s) ∧ mode = TradingMode.spot then
    replaceColonUSDT [] s
  else if ("/USDT:USDT".toList <:+: s) ∧ mode = TradingMode.futures then s
  else if ("/USDT".toList <:+: s) ∧ ¬(":USDT".toList <:+: s) then
    if mode = TradingMode.futures then s ++ ":USDT".toList else s
  else if '/' ∉ s ∧ ':' ∉ s ∧ ("USDT".toList <:+ s) then
    if mode = TradingMode.futures then s.take (s.length - 4) ++ "/USDT:USDT".toList
    else s.take (s.length - 4) ++ "/USDT".toList
  else if mode = TradingMode.futures ∧ ¬(":USDT".toList <:+: s) then s ++ ":USDT".toList
  else s

/-- A remote-call exception: network or timeout class versus everything
else, carrying the stringified exception text. -/
inductive RErr where
  | conn (msg : String)
  | other (msg : String)
deriving DecidableEq

/-- The stringified text of an exception, regardless of its class. -/
def rerrMsg : RErr → String
  | RErr.conn m => m
  | RErr.other m => m

/-- One record of the remote `/status` listing, as read by the trade-closing
code: `str(t.get("pair") or "")`, the truthiness of `t.get("is_open")`, and
`t.get("trade_id")` which may be absent. -/
structure OpenTradeRecord where
  pair : List Char
  is_open : Bool
  trade_id : Option Int
deriving DecidableEq

/-- The value of `client.status()`: either a list of trade records or some
non-list value (the code checks `isinstance(..., (list, tuple))`). -/
inductive StatusVal where
  | list (ts : List OpenTradeRecord)
  | other (s : String)
deriving DecidableEq

/-- How `client.forceexit` is invoked: keyword `tradeid=...`, keyword
`pair=...`, or with a single positional argument (close_position fallback,
line 715). -/
inductive FxArg where
  | tradeid (id : Int)
  | byPair (p : List Char)
  | positional (p : List Char)
deriving DecidableEq

/-- The side passed to `forceenter` (module line 529). -/
inductive EnterSide where
  | long
  | short
deriving DecidableEq

/-- The remote Freqtrade REST client, abstracted as a record of responses.
`Except.error` models the call raising an exception.  `whitelist` is `some`
of the pair list when the response is a dict with a `"whitelist"` key and
`none` otherwise.  `show_config_http` models the direct HTTP request of
fetch_config (lines 263-278): `some text` when the request succeeds with a
truthy body, `none` for every failure mode (all of which fall through to the
status fallback).  The `has_*` flags model the `hasattr` probes. -/
structure Client where
  pair_candles : List Char → List Char → Except RErr String
  status : Except RErr StatusVal
  profit : Except RErr String
  balance : Except RErr String
  performance : Except RErr String
  whitelist : Except RErr (Option (List (List Char)))
  blacklist : Except RErr String
  trades : Except RErr String
  locks : Except RErr String
  show_config_http : Option String
  has_forceenter : Bool
  forceenter : List Char → EnterSide → Option Rat → List Char → Except RErr String
  has_forceexit : Bool
  forceexit : FxArg → Except RErr String
  has_start : Bool
  start : Except RErr String
  has_start_bot : Bool
  start_bot : Except RErr String
  has_stop : Bool
  stop : Except RErr String
  has_stop_bot : Bool
  stop_bot : Except RErr String
  add_blacklist : List Char → Except RErr String
  delete_blacklist : List Char → Except RErr String
  delete_lock : Int → Except RErr String

/-- One attempted remote invocation, for the call trace a tool produces. -/
inductive RemoteCall where
  | whitelist
  | status
  | pairCandles
  | profit
  | balance
  | performance
  | blacklist
  | trades
  | locks
  | showConfig
  | forceenter
  | forceexit
  | start
  | startBot
  | stop
  | stopBot
  | addBlacklist
  | deleteBlacklist
  | deleteLock
deriving DecidableEq

/-- The value a tool returns.  Each constructor stands for one of the
distinct stringified payload shapes of the source: `err msg` is the dict
with an `"error"` key and the given message; `errSymbol` is the
symbol-not-in-whitelist error dict of place_trade (lines 496-503);
`errInvalidSide` and `errPriceNotPositive` are the fixed validation error
dicts of lines 511-516 and 525; `enterOk`, `exitOkInvalidArg`, `exitOk`,
`closeOkId` and `closeOkPair` are the normalized success envelopes;
`modeInfo` is the static get_trading_mode dict, determined by the mode. -/
inductive Payload where
  | err (msg : String)
  | errSymbol (original converted : List Char) (mode : TradingMode)
  | errInvalidSide
  | errPriceNotPositive
  | okStr (s : String)
  | okStatus (v : StatusVal)
  | okWhitelist (v : Option (List (List Char)))
  | configText (s : String)
  | configFallback (v : StatusVal)
  | modeInfo (mode : TradingMode)
  | enterOk (side : EnterSide) (pair : List Char) (price : Option Rat)
      (enter_tag : List Char) (already_open : Bool) (raw : String)
  | exitOkInvalidArg (pair : List Char) (raw : String)
  | exitOk (pair : List Char) (raw : String)
  | closeOkId (trade_id : Int) (raw : String)
  | closeOkPair (pair : List Char) (raw : String)
deriving DecidableEq

/-- Whether a payload is one of the three local-validation error payloads of
place_trade (invalid side, non-positive price, symbol not in whitelist). -/
def isValidationError : Payload → Bool
  | Payload.errSymbol _ _ _ => true
  | Payload.errInvalidSide => true
  | Payload.errPriceNotPositive => true
  | _ => false

/-- Lines 397-403: fetch the whitelist, treating a failed call or a response
without a `"whitelist"` key as the empty list. -/
def fetched_whitelist (c : Client) : List (List Char) :=
  match c.whitelist with
  | Except.ok (some wl) => wl
  | _ => []

/-- `_validate_symbol_in_whitelist` (lines 385-448), with TRADING_MODE
explicit.  Returns the corrected symbol and the validity flag.  The single
remote call it makes (`client.whitelist()`) is logged by its callers. -/
def validate_symbol_in_whitelist (mode : TradingMode) (c : Client) (symbol : List Char) :
    List Char × Bool :=
  let whitelist := fetched_whitelist c
  if whitelist ≠ [] ∧ symbol ∈ whitelist then (symbol, true)
  else if '/' ∉ symbol ∧ ':' ∉ symbol ∧ ("USDT".toList <:+ symbol) then
    let base := symbol.take (symbol.length - 4)
    let primary_format :=
      if mode = TradingMode.futures then base ++ "/USDT:USDT".toList
      else base ++ "/USDT".toList
    let fallback_formats :=
      if mode = TradingMode.futures then [base ++ "/USDT".toList, base ++ "USDT:USDT".toList]
      else [base ++ "/USDT:USDT".toList, base ++ "USDT:USDT".toList]
    if whitelist ≠ [] then
      if primary_format ∈ whitelist then (primary_format, true)
      else
        match fallback_formats.find? (fun f => decide (f ∈ whitelist)) with
        | some f => (f, true)
        | none => (primary_format, false)
    else (primary_format, true)
  else
    let converted := convert_symbol_format mode symbol
    if whitelist ≠ [] then (converted, decide (converted ∈ whitelist))
    else (converted, true)

/-- The candidate pair set built before resolving a trade id (lines 685-689
and, identically, 560-564).  Membership is all that the resolver uses, so
the set is embedded as a list. -/
def candidate_pairs (pair : List Char) : List (List Char) :=
  [pair]
    ++ (if ¬(":USDT".toList <:+: pair) ∧ ("USDT".toList <:+: pair)
        then [pair ++ ":USDT".toList] else [])
    ++ (if ":USDT".toList <:+ pair
        then [replaceColonUSDT "/USDT".toList pair] else [])

/-- The open-trade resolver (lines 691-700 and 554-569): scan the status
list in order and return the `trade_id` of the first open record whose pair
is in the candidate set (which may itself be absent). -/
def resolveTradeId (pair : List Char) (statusList : List OpenTradeRecord) : Option Int :=
  match statusList.find? (fun t => decide (t.pair ∈ candidate_pairs pair) && t.is_open) with
  | some t => t.trade_id
  | none => none

/-- The trade-id resolution block (lines 554-571 and 692-702): read the
status listing, and on a list response resolve through the candidate set;
a raised exception or a non-list response yields no trade id. -/
def resolve_from_status (c : Client) (p : List Char) : Option Int :=
  match c.status with
  | Except.ok (StatusVal.list ts) => resolveTradeId p ts
  | _ => none

/-- The price validation of lines 519-525: a supplied price must be
positive.  The `float(price)` conversion cannot fail because the tool
signature already types the argument as float or None. -/
def priceNonPositive : Option Rat → Bool
  | some pr => decide (pr ≤ 0)
  | none => false

/-- The enter path of place_trade after validation (lines 528-549 and
615-626): build the kwargs, call forceenter, and normalize the outcome.
The auto tag is `"mcp-limit"` when a price is given, `"mcp-market"`
otherwise; `already_open` is whether the lowered response text contains
`"already open"`. -/
def run_enter (c : Client) (p : List Char) (desired : EnterSide) (price : Option Rat)
    (enter_tag : Option (List Char)) : Payload × List RemoteCall :=
  let tagUsed :=
    match enter_tag with
    | some t => t
    | none => if price.isSome then "mcp-limit".toList else "mcp-market".toList
  match c.forceenter p desired price tagUsed with
  | Except.ok r =>
      (Payload.enterOk desired p price tagUsed
        (decide ("already open".toList <:+: pyLower r.toList)) r, [RemoteCall.forceenter])
  | Except.error (RErr.conn m) =>
      (Payload.err ("Connection error placing trade: " ++ m), [RemoteCall.forceenter])
  | Except.error (RErr.other m) =>
      (Payload.err ("Failed to place trade: " ++ m), [RemoteCall.forceenter])

/-- The exit path of place_trade after validation (lines 550-593 and
627-646).  The status call is logged by the caller; this returns the
forceexit call trace.  A raise from the first forceexit is retried once with
`pair=pair`; a raise from the retry yields the failed-to-exit error.  A
successful response is classified: if its lowered text contains both
`"forceexit"` and `"invalid argument"` the known quirk is reclassified as
success with a note. -/
def run_exit (c : Client) (p : List Char) : Payload × List RemoteCall :=
  let attempt : Except String String × List RemoteCall :=
    match resolve_from_status c p with
    | some id =>
      match c.forceexit (FxArg.tradeid id) with
      | Except.ok r => (Except.ok r, [RemoteCall.forceexit])
      | Except.error _ =>
        match c.forceexit (FxArg.byPair p) with
        | Except.ok r => (Except.ok r, [RemoteCall.forceexit, RemoteCall.forceexit])
        | Except.error e2 =>
            (Except.error (rerrMsg e2), [RemoteCall.forceexit, RemoteCall.forceexit])
    | none =>
      let exit_pair :=
        if ¬(":USDT".toList <:+: p) ∧ ("USDT".toList <:+: p) then p ++ ":USDT".toList else p
      match c.forceexit (FxArg.byPair exit_pair) with
      | Except.ok r => (Except.ok r, [RemoteCall.forceexit])
      | Except.error _ =>
        match c.forceexit (FxArg.byPair p) with
        | Except.ok r => (Except.ok r, [RemoteCall.forceexit, RemoteCall.forceexit])
        | Except.error e2 =>
            (Except.error (rerrMsg e2), [RemoteCall.forceexit, RemoteCall.forceexit])
  match attempt with
  | (Except.ok r, log) =>
    if ("forceexit".toList <:+: pyLower r.toList) ∧ ("invalid argument".toList <:+: pyLower r.toList)
    then (Payload.exitOkInvalidArg p r, log)
    else (Payload.exitOk p r, log)
  | (Except.error m, log) => (Payload.err ("Failed to exit position: " ++ m), log)

/-- The accepted side aliases of place_trade (lines 507-509). -/
def open_long_aliases : List (List Char) :=
  ["buy".toList, "long".toList, "enter_long".toList]

/-- Short-entry aliases (line 508). -/
def open_short_aliases : List (List Char) :=
  ["short".toList, "enter_short".toList]

/-- Close aliases (line 509). -/
def close_aliases : List (List Char) :=
  ["sell".toList, "exit".toList, "close".toList, "exit_long".toList, "exit_short".toList]

/-- Dispatch of place_trade after all local validation passed (lines
527-593): enter via forceenter for long or short aliases, otherwise exit
via forceexit, each guarded by a hasattr probe. -/
def place_trade_exec (c : Client) (p normalized : List Char) (price : Option Rat)
    (enter_tag : Option (List Char)) : Payload × List RemoteCall :=
  if normalized ∈ open_long_aliases ∨ normalized ∈ open_short_aliases then
    let desired : EnterSide :=
      if normalized ∈ open_long_aliases then EnterSide.long else EnterSide.short
    if c.has_forceenter then
      let r := run_enter c p desired price enter_tag
      (r.1, RemoteCall.whitelist :: r.2)
    else (Payload.err "No supported forceenter method available on client",
          [RemoteCall.whitelist])
  else
    if c.has_forceexit then
      let r := run_exit c p
      (r.1, RemoteCall.whitelist :: RemoteCall.status :: r.2)
    else (Payload.err "No supported forceexit method available on client",
          [RemoteCall.whitelist])

/-- The place_trade tool (lines 451-650), with TRADING_MODE explicit.
`stake_amount` is accepted and never read (line 458).  The validation
order follows the source: symbol validation (which itself fetches the
whitelist), then the side alias check, then the price check, then the
remote action. -/
def place_trade (mode : TradingMode) (client : Option Client) (pair side : List Char)
    (price : Option Rat) (enter_tag : Option (List Char)) (stake_amount : Option Rat) :
    Payload × List RemoteCall :=
  match client with
  | none => (Payload.err "Freqtrade client not connected", [])
  | some c =>
    let v := validate_symbol_in_whitelist mode c pair
    let p := v.1
    if v.2 = false then (Payload.errSymbol pair p mode, [RemoteCall.whitelist])
    else
      let normalized := pyLower (pyStrip side)
      if normalized ∉ open_long_aliases ∧ normalized ∉ open_short_aliases ∧
          normalized ∉ close_aliases then
        (Payload.errInvalidSide, [RemoteCall.whitelist])
      else if priceNonPositive price then
        (Payload.errPriceNotPositive, [RemoteCall.whitelist])
      else place_trade_exec c p normalized price enter_tag

/-- `str(last_error)` of the close_position fallback, where the loop may
never have run (`None`). -/
def strOfLastError : Option String → String
  | none => "None"
  | some m => m

/-- The pair-keyed fallback loop of close_position (lines 712-721): try a
positional forceexit for each candidate, first success wins, remembering
the last error.  Python iterates a set here, whose order is unspecified;
the candidate list order is used. -/
def close_fallback (c : Client) (last_error : Option String) :
    List (List Char) → Payload × List RemoteCall
  | [] =>
    (Payload.err ("Failed to close position. No trade_id found and pair-based exit failed: "
        ++ strOfLastError last_error), [])
  | p :: rest =>
    match c.forceexit (FxArg.positional p) with
    | Except.ok r => (Payload.closeOkPair p r, [RemoteCall.forceexit])
    | Except.error e =>
      let t := close_fallback c (some (rerrMsg e)) rest
      (t.1, RemoteCall.forceexit :: t.2)

/-- The close_position tool (lines 653-729).  Validation failure is only
logged here, not returned.  A raise from the trade-id forceexit is caught
by the outer handler of the tool. -/
def close_position (mode : TradingMode) (client : Option Client) (pair : List Char) :
    Payload × List RemoteCall :=
  match client with
  | none => (Payload.err "Freqtrade client not connected", [])
  | some c =>
    let v := validate_symbol_in_whitelist mode c pair
    let p := v.1
    match resolve_from_status c p with
    | some id =>
      match c.forceexit (FxArg.tradeid id) with
      | Except.ok r =>
          (Payload.closeOkId id r, [RemoteCall.whitelist, RemoteCall.status, RemoteCall.forceexit])
      | Except.error e =>
          (Payload.err ("Failed to close position: " ++ rerrMsg e),
           [RemoteCall.whitelist, RemoteCall.status, RemoteCall.forceexit])
    | none =>
      let t := close_fallback c none (candidate_pairs p)
      (t.1, RemoteCall.whitelist :: RemoteCall.status :: t.2)

/-- The shared fetch-stringify-catch shape of the simple wrappers: on
success return the stringified response, on a connection or timeout class
exception the connection-error payload, otherwise the generic failure
payload. -/
def simple_fetch (call : RemoteCall) (resp : Except RErr String)
    (connMsg failMsg : String) : Payload × List RemoteCall :=
  match resp with
  | Except.ok s => (Payload.okStr s, [call])
  | Except.error (RErr.conn m) => (Payload.err (connMsg ++ m), [call])
  | Except.error (RErr.other m) => (Payload.err (failMsg ++ m), [call])

/-- fetch_market_data (lines 56-79). -/
def fetch_market_data (client : Option Client) (pair timeframe : List Char) :
    Payload × List RemoteCall :=
  match client with
  | none => (Payload.err "Freqtrade client not connected", [])
  | some c =>
      simple_fetch RemoteCall.pairCandles (c.pair_candles pair timeframe)
        "Connection error fetching market data: " "Failed to fetch market data: "

/-- fetch_bot_status (lines 82-102). -/
def fetch_bot_status (client : Option Client) : Payload × List RemoteCall :=
  match client with
  | none => (Payload.err "Freqtrade client not connected", [])
  | some c =>
    match c.status with
    | Except.ok v => (Payload.okStatus v, [RemoteCall.status])
    | Except.error (RErr.conn m) =>
        (Payload.err ("Connection error fetching bot status: " ++ m), [RemoteCall.status])
    | Except.error (RErr.other m) =>
        (Payload.err ("Failed to fetch bot status: " ++ m), [RemoteCall.status])

/-- fetch_profit (lines 105-125). -/
def fetch_profit (client : Option Client) : Payload × List RemoteCall :=
  match client with
  | none => (Payload.err "Freqtrade client not connected", [])
  | some c =>
      simple_fetch RemoteCall.profit c.profit
        "Connection error fetching profit: " "Failed to fetch profit: "

/-- fetch_balance (lines 128-148). -/
def fetch_balance (client : Option Client) : Payload × List RemoteCall :=
  match client with
  | none => (Payload.err "Freqtrade client not connected", [])
  | some c =>
      simple_fetch RemoteCall.balance c.balance
        "Connection error fetching balance: " "Failed to fetch balance: "

/-- fetch_performance (lines 151-171). -/
def fetch_performance (client : Option Client) : Payload × List RemoteCall :=
  match client with
  | none => (Payload.err "Freqtrade client not connected", [])
  | some c =>
      simple_fetch RemoteCall.performance c.performance
        "Connection error fetching performance: " "Failed to fetch performance: "

/-- fetch_whitelist (lines 174-194). -/
def fetch_whitelist (client : Option Client) : Payload × List RemoteCall :=
  match client with
  | none => (Payload.err "Freqtrade client not connected", [])
  | some c =>
    match c.whitelist with
    | Except.ok v => (Payload.okWhitelist v, [RemoteCall.whitelist])
    | Except.error (RErr.conn m) =>
        (Payload.err ("Connection error fetching whitelist: " ++ m), [RemoteCall.whitelist])
    | Except.error (RErr.other m) =>
        (Payload.err ("Failed to fetch whitelist: " ++ m), [RemoteCall.whitelist])

/-- fetch_blacklist (lines 197-217). -/
def fetch_blacklist (client : Option Client) : Payload × List RemoteCall :=
  match client with
  | none => (Payload.err "Freqtrade client not connected", [])
  | some c =>
      simple_fetch RemoteCall.blacklist c.blacklist
        "Connection error fetching blacklist: " "Failed to fetch blacklist: "

/-- fetch_trades (lines 220-240). -/
def fetch_trades (client : Option Client) : Payload × List RemoteCall :=
  match client with
  | none => (Payload.err "Freqtrade client not connected", [])
  | some c =>
      simple_fetch RemoteCall.trades c.trades
        "Connection error fetching trades: " "Failed to fetch trades: "

/-- fetch_config (lines 243-293): try the direct show_config HTTP request,
fall back to a status call, classify failures of the fallback. -/
def fetch_config (client : Option Client) : Payload × List RemoteCall :=
  match client with
  | none => (Payload.err "Freqtrade client not connected", [])
  | some c =>
    match c.show_config_http with
    | some text => (Payload.configText text, [RemoteCall.showConfig])
    | none =>
      match c.status with
      | Except.ok v => (Payload.configFallback v, [RemoteCall.showConfig, RemoteCall.status])
      | Except.error (RErr.conn m) =>
          (Payload.err ("Connection error fetching config: " ++ m),
           [RemoteCall.showConfig, RemoteCall.status])
      | Except.error (RErr.other m) =>
          (Payload.err ("Failed to fetch config: " ++ m),
           [RemoteCall.showConfig, RemoteCall.status])

/-- get_trading_mode (lines 296-315): a static payload computed from
TRADING_MODE alone; the client is never consulted. -/
def get_trading_mode (mode : TradingMode) : Payload × List RemoteCall :=
  (Payload.modeInfo mode, [])

/-- fetch_locks (lines 318-338). -/
def fetch_locks (client : Option Client) : Payload × List RemoteCall :=
  match client with
  | none => (Payload.err "Freqtrade client not connected", [])
  | some c =>
      simple_fetch RemoteCall.locks c.locks
        "Connection error fetching locks: " "Failed to fetch locks: "

/-- start_bot (lines 732-761). -/
def start_bot (client : Option Client) : Payload × List RemoteCall :=
  match client with
  | none => (Payload.err "Freqtrade client not connected", [])
  | some c =>
    if c.has_start then
      simple_fetch RemoteCall.start c.start
        "Connection error starting bot: " "Failed to start bot: "
    else if c.has_start_bot then
      simple_fetch RemoteCall.startBot c.start_bot
        "Connection error starting bot: " "Failed to start bot: "
    else (Payload.err "No supported start method available on client", [])

/-- stop_bot (lines 764-793). -/
def stop_bot (client : Option Client) : Payload × List RemoteCall :=
  match client with
  | none => (Payload.err "Freqtrade client not connected", [])
  | some c =>
    if c.has_stop then
      simple_fetch RemoteCall.stop c.stop
        "Connection error stopping bot: " "Failed to stop bot: "
    else if c.has_stop_bot then
      simple_fetch RemoteCall.stopBot c.stop_bot
        "Connection error stopping bot: " "Failed to stop bot: "
    else (Payload.err "No supported stop method available on client", [])

/-- add_blacklist (lines 958-981). -/
def add_blacklist (client : Option Client) (pair : List Char) : Payload × List RemoteCall :=
  match client with
  | none => (Payload.err "Freqtrade client not connected", [])
  | some c =>
      simple_fetch RemoteCall.addBlacklist (c.add_blacklist pair)
        "Connection error adding to blacklist: " "Failed to add to blacklist: "

/-- delete_blacklist (lines 984-1007). -/
def delete_blacklist (client : Option Client) (pair : List Char) : Payload × List RemoteCall :=
  match client with
  | none => (Payload.err "Freqtrade client not connected", [])
  | some c =>
      simple_fetch RemoteCall.deleteBlacklist (c.delete_blacklist pair)
        "Connection error removing from blacklist: " "Failed to remove from blacklist: "

/-- delete_lock (lines 1010-1033). -/
def delete_lock (client : Option Client) (lock_id : Int) : Payload × List RemoteCall :=
  match client with
  | none => (Payload.err "Freqtrade client not connected", [])
  | some c =>
      simple_fetch RemoteCall.deleteLock (c.delete_lock lock_id)
        "Connection error deleting lock: " "Failed to delete lock: "

/-- The eighteen functions decorated `mcp.tool` in the module, in source
order; the two prompt functions are not tools. -/
inductive Tool where
  | fetch_market_data
  | fetch_bot_status
  | fetch_profit
  | fetch_balance
  | fetch_performance
  | fetch_whitelist
  | fetch_blacklist
  | fetch_trades
  | fetch_config
  | get_trading_mode
  | fetch_locks
  | place_trade
  | close_position
  | start_bot
  | stop_bot
  | add_blacklist
  | delete_blacklist
  | delete_lock
deriving DecidableEq

/-- The named arguments a tool invocation can carry at the tool boundary;
each tool reads only the arguments it declares. -/
structure ToolArgs where
  pair : List Char := []
  timeframe : List Char := []
  side : List Char := []
  price : Option Rat := none
  enter_tag : Option (List Char) := none
  stake_amount : Option Rat := none
  lock_id : Int := 0

/-- The tool boundary: dispatch an invocation to the tool body. -/
def runTool (mode : TradingMode) (t : Tool) (a : ToolArgs) (client : Option Client) :
    Payload × List RemoteCall :=
  match t with
  | Tool.fetch_market_data => fetch_market_data client a.pair a.timeframe
  | Tool.fetch_bot_status => fetch_bot_status client
  | Tool.fetch_profit => fetch_profit client
  | Tool.fetch_balance => fetch_balance client
  | Tool.fetch_performance => fetch_performance client
  | Tool.fetch_whitelist => fetch_whitelist client
  | Tool.fetch_blacklist => fetch_blacklist client
  | Tool.fetch_trades => fetch_trades client
  | Tool.fetch_config => fetch_config client
  | Tool.get_trading_mode => get_trading_mode mode
  | Tool.fetch_locks => fetch_locks client
  | Tool.place_trade => place_trade mode client a.pair a.side a.price a.enter_tag a.stake_amount
  | Tool.close_position => close_position mode client a.pair
  | Tool.start_bot => start_bot client
  | Tool.stop_bot => stop_bot client
  | Tool.add_blacklist => add_blacklist client a.pair
  | Tool.delete_blacklist => delete_blacklist client a.pair
  | Tool.delete_lock => delete_lock client a.lock_id

/-- A fully concrete client used to build the concrete clients below: every
endpoint succeeds with an empty payload and every hasattr probe is true. -/
def clientBase : Client where
  pair_candles := fun _ _ => Except.ok ""
  status := Except.ok (StatusVal.list [])
  profit := Except.ok ""
  balance := Except.ok ""
  performance := Except.ok ""
  whitelist := Except.ok none
  blacklist := Except.ok ""
  trades := Except.ok ""
  locks := Except.ok ""
  show_config_http := none
  has_forceenter := true
  forceenter := fun _ _ _ _ => Except.ok ""
  has_forceexit := true
  forceexit := fun _ => Except.ok ""
  has_start := true
  start := Except.ok ""
  has_start_bot := true
  start_bot := Except.ok ""
  has_stop := true
  stop := Except.ok ""
  has_stop_bot := true
  stop_bot := Except.ok ""
  add_blacklist := fun _ => Except.ok ""
  delete_blacklist := fun _ => Except.ok ""
  delete_lock := fun _ => Except.ok ""

/-- A client whose whitelist is exactly the spot pair KMNO/USDT. -/
def clientKMNO : Client :=
  { clientBase with whitelist := Except.ok (some ["KMNO/USDT".toList]) }

/-- A client whose whitelist is exactly the futures pair BTC/USDT:USDT. -/
def clientBTC : Client :=
  { clientBase with whitelist := Except.ok (some ["BTC/USDT:USDT".toList]) }

/-- A client whose whitelist is exactly ETH/USDT:USDT, so that validating an
unrelated symbol fails. -/
def clientETH : Client :=
  { clientBase with whitelist := Except.ok (some ["ETH/USDT:USDT".toList]) }

/-- A client whose forceexit always answers with the known invalid-argument
quirk text. -/
def clientQuirkExit : Client :=
  { clientBase with forceexit := fun _ => Except.ok "Forceexit failed: invalid argument" }

/-- A client whose forceenter always answers with the already-open quirk
text. -/
def clientQuirkEnter : Client :=
  { clientBase with forceenter := fun _ _ _ _ => Except.ok "Position already open" }

/-- Removing `":USDT"` occurrences never removes a slash. -/
theorem slash_mem_replaceColonUSDT (s : List Char) (h : '/' ∈ s) :
    '/' ∈ replaceColonUSDT [] s := by
  induction s using replaceColonUSDT.induct [] with
  | case1 rest ih =>
      have hr : '/' ∈ rest := by
        simp only [List.mem_cons] at h
        rcases h with h | h | h | h | h | h <;> first | (exact absurd h (by decide)) | exact h
      have e : replaceColonUSDT [] (':' :: 'U' :: 'S' :: 'D' :: 'T' :: rest)
          = [] ++ replaceColonUSDT [] rest := rfl
      rw [e]
      simpa using ih hr
  | case2 c rest hne ih =>
      rw [replaceColonUSDT.eq_2 [] c rest hne]
      simp only [List.mem_cons] at h ⊢
      rcases h with h | h
      · exact Or.inl h
      · exact Or.inr (ih h)
  | case3 => simp at h

/-- In futures mode a symbol containing the full futures marker is left
unchanged. -/
theorem convert_futures_fix (s : List Char) (h : "/USDT:USDT".toList <:+: s) :
    convert_symbol_format TradingMode.futures s = s := by
  unfold convert_symbol_format
  rw [if_pos h, if_neg (by decide : ¬(TradingMode.futures = TradingMode.spot))]

/-- In futures mode a symbol ending in `":USDT"` obtained by appending is
left unchanged. -/
theorem convert_futures_append_colon (s : List Char) :
    convert_symbol_format TradingMode.futures (s ++ ":USDT".toList) = s ++ ":USDT".toList := by
  have h5 : ":USDT".toList <:+: s ++ ":USDT".toList :=
    (List.suffix_append s ":USDT".toList).isInfix
  have h6 : ':' ∈ s ++ ":USDT".toList := h5.subset (by decide)
  by_cases hA : "/USDT:USDT".toList <:+: s ++ ":USDT".toList
  · exact convert_futures_fix _ hA
  · unfold convert_symbol_format
    rw [if_neg hA,
      if_neg (fun hB => hB.2 h5 :
        ¬(("/USDT".toList <:+: s ++ ":USDT".toList) ∧
          ¬(":USDT".toList <:+: s ++ ":USDT".toList))),
      if_neg (fun hC => hC.2.2 h6 :
        ¬(("USDT".toList <:+ s ++ ":USDT".toList) ∧
          '/' ∉ s ++ ":USDT".toList ∧ ':' ∉ s ++ ":USDT".toList)),
      if_neg (fun hD => hD.2 h5 :
        ¬(TradingMode.futures = TradingMode.futures ∧
          ¬(":USDT".toList <:+: s ++ ":USDT".toList)))]

/-- Futures-mode normalization is idempotent. -/
theorem convert_futures_idem (s : List Char) :
    convert_symbol_format TradingMode.futures (convert_symbol_format TradingMode.futures s) =
      convert_symbol_format TradingMode.futures s := by
  by_cases h1 : "/USDT:USDT".toList <:+: s
  · have e := convert_futures_fix s h1
    rw [e]
    exact e
  · by_cases h2 : ("/USDT".toList <:+: s) ∧ ¬(":USDT".toList <:+: s)
    · have e : convert_symbol_format TradingMode.futures s = s ++ ":USDT".toList := by
        unfold convert_symbol_format
        rw [if_neg h1, if_pos h2, if_pos rfl]
      rw [e]
      exact convert_futures_append_colon s
    · by_cases h3 : ("USDT".toList <:+ s) ∧ '/' ∉ s ∧ ':' ∉ s
      · have e : convert_symbol_format TradingMode.futures s
            = s.take (s.length - 4) ++ "/USDT:USDT".toList := by
          unfold convert_symbol_format
          rw [if_neg h1, if_neg h2, if_pos h3, if_pos rfl]
        rw [e]
        exact convert_futures_fix _ (List.suffix_append _ _).isInfix
      · by_cases h4 : ":USDT".toList <:+: s
        · have e : convert_symbol_format TradingMode.futures s = s := by
            unfold convert_symbol_format
            rw [if_neg h1, if_neg h2, if_neg h3,
              if_neg (fun hD => hD.2 h4 :
                ¬(TradingMode.futures = TradingMode.futures ∧ ¬(":USDT".toList <:+: s)))]
          rw [e]
          exact e
        · have e : convert_symbol_format TradingMode.futures s = s ++ ":USDT".toList := by
            unfold convert_symbol_format
            rw [if_neg h1, if_neg h2, if_neg h3, if_pos ⟨rfl, h4⟩]
          rw [e]
          exact convert_futures_append_colon s

/-- In spot mode a symbol containing a slash and not containing the full
futures marker is left unchanged. -/
theorem convert_spot_fix (r : List Char) (hA : ¬("/USDT:USDT".toList <:+: r))
    (hs : '/' ∈ r) : convert_symbol_format TradingMode.spot r = r := by
  by_cases hB : ("/USDT".toList <:+: r) ∧ ¬(":USDT".toList <:+: r)
  · unfold convert_symbol_format
    rw [if_neg hA, if_pos hB, if_neg (by decide : ¬(TradingMode.spot = TradingMode.futures))]
  · unfold convert_symbol_format
    rw [if_neg hA, if_neg hB,
      if_neg (fun hC => hC.2.1 hs : ¬(("USDT".toList <:+ r) ∧ '/' ∉ r ∧ ':' ∉ r)),
      if_neg (fun hD => TradingMode.noConfusion hD.1 :
        ¬(TradingMode.spot = TradingMode.futures ∧ ¬(":USDT".toList <:+: r)))]

/-- Spot-mode normalization is idempotent whenever its output does not
contain the full futures marker. -/
theorem convert_spot_cond_idem (s : List Char)
    (h : ¬("/USDT:USDT".toList <:+: convert_symbol_format TradingMode.spot s)) :
    convert_symbol_format TradingMode.spot (convert_symbol_format TradingMode.spot s) =
      convert_symbol_format TradingMode.spot s := by
  by_cases h1 : "/USDT:USDT".toList <:+: s
  · have e : convert_symbol_format TradingMode.spot s = replaceColonUSDT [] s := by
      unfold convert_symbol_format
      rw [if_pos h1, if_pos rfl]
    rw [e] at h ⊢
    exact convert_spot_fix _ h (slash_mem_replaceColonUSDT s (h1.subset (by decide)))
  · by_cases h2 : ("/USDT".toList <:+: s) ∧ ¬(":USDT".toList <:+: s)
    · have e : convert_symbol_format TradingMode.spot s = s := by
        unfold convert_symbol_format
        rw [if_neg h1, if_pos h2, if_neg (by decide : ¬(TradingMode.spot = TradingMode.futures))]
      rw [e]
      exact e
    · by_cases h3 : ("USDT".toList <:+ s) ∧ '/' ∉ s ∧ ':' ∉ s
      · have e : convert_symbol_format TradingMode.spot s
            = s.take (s.length - 4) ++ "/USDT".toList := by
          unfold convert_symbol_format
          rw [if_neg h1, if_neg h2, if_pos h3,
            if_neg (by decide : ¬(TradingMode.spot = TradingMode.futures))]
        rw [e] at h ⊢
        exact convert_spot_fix _ h (List.mem_append.mpr (Or.inr (by decide)))
      · have e : convert_symbol_format TradingMode.spot s = s := by
          unfold convert_symbol_format
          rw [if_neg h1, if_neg h2, if_neg h3,
            if_neg (fun hD => TradingMode.noConfusion hD.1 :
              ¬(TradingMode.spot = TradingMode.futures ∧ ¬(":USDT".toList <:+: s)))]
        rw [e]
        exact e

/-- On a separator-free symbol ending in USDT, the normalizer emits the
mode-primary canonical form. -/
theorem convert_bybit (mode : TradingMode) (s : List Char)
    (h1 : '/' ∉ s) (h2 : ':' ∉ s) (h3 : "USDT".toList <:+ s) :
    convert_symbol_format mode s =
      (if mode = TradingMode.futures then s.take (s.length - 4) ++ "/USDT:USDT".toList
       else s.take (s.length - 4) ++ "/USDT".toList) := by
  have hA : ¬("/USDT:USDT".toList <:+: s) := fun hA => h1 (hA.subset (by decide))
  have hB : ¬(("/USDT".toList <:+: s) ∧ ¬(":USDT".toList <:+: s)) :=
    fun hB => h1 (hB.1.subset (by decide))
  unfold convert_symbol_format
  rw [if_neg hA, if_neg hB, if_pos ⟨h3, h1, h2⟩]

/-- C1, counterexample: on the input `"/USDT:USDT:USDT"` in spot mode the
code removes every `":USDT"` occurrence and yields `"/USDT"`, while rule 1
of the spec reference (strip the `":USDT"` suffix) yields `"/USDT:USDT"`,
so the five-rule reference as worded does not equal the function. -/
theorem c1_counterexample :
    normalizeSpec TradingMode.spot "/USDT:USDT:USDT".toList ≠
      convert_symbol_format TradingMode.spot "/USDT:USDT:USDT".toList := by decide

/-- C1, amended: the symbol normalizer equals the five-rule first-match-wins
reference of spec section 4.1 once rule 1 is amended to remove every
occurrence of `":USDT"` (Python replace semantics) instead of stripping only
a trailing suffix; totality is inherent, both sides being total functions on
strings. -/
theorem c1_normalizer_matches_amended_spec (mode : TradingMode) (s : List Char) :
    convert_symbol_format mode s = normalizeSpecFixed mode s := by
  cases mode <;>
    simp only [convert_symbol_format, normalizeSpecFixed] <;>
    split_ifs <;> first | rfl | simp_all

/-- C7, counterexample: in spot mode the normalizer is not idempotent at
`"/USDT:USDT::USDTUSDT"`; removing the `":USDT"` occurrences re-creates the
substring `"/USDT:USDT"`, which a second application removes again. -/
theorem c7_counterexample :
    convert_symbol_format TradingMode.spot
        (convert_symbol_format TradingMode.spot "/USDT:USDT::USDTUSDT".toList) ≠
      convert_symbol_format TradingMode.spot "/USDT:USDT::USDTUSDT".toList := by decide

/-- C7, amended: the normalizer is idempotent in futures mode for every
input, and in spot mode for every input whose normalized form does not
contain `"/USDT:USDT"`. -/
theorem c7_normalize_idem_amended (mode : TradingMode) (s : List Char)
    (h : mode = TradingMode.futures ∨
      ¬("/USDT:USDT".toList <:+: convert_symbol_format mode s)) :
    convert_symbol_format mode (convert_symbol_format mode s) =
      convert_symbol_format mode s := by
  cases mode with
  | futures => exact convert_futures_idem s
  | spot =>
      rcases h with h | h
      · exact absurd h (by decide)
      · exact convert_spot_cond_idem s h

/-- Witness for the amended C7 at a concrete futures-mode input. -/
theorem c7_witness :
    convert_symbol_format TradingMode.futures
        (convert_symbol_format TradingMode.futures "BTCUSDT".toList) =
      convert_symbol_format TradingMode.futures "BTCUSDT".toList :=
  c7_normalize_idem_amended TradingMode.futures "BTCUSDT".toList (Or.inl rfl)

/-- C8, counterexample: the futures normalizer does not always produce a
string ending in `"/USDT:USDT"`; on `"X:USDT"` every rule but the fallback
misses and the fallback returns the input unchanged because it already
contains `":USDT"`. -/
theorem c8_counterexample :
    ¬("/USDT:USDT".toList <:+ convert_symbol_format TradingMode.futures "X:USDT".toList) := by
  decide

/-- C8, amended: for every input in one of the recognized surface forms --
ending in `"/USDT:USDT"`, or ending in `"/USDT"` without containing
`":USDT"`, or ending in `"USDT"` with no separator characters -- the
futures normalizer produces a string ending in `"/USDT:USDT"`. -/
theorem c8_futures_suffix_amended (s : List Char)
    (h : ("/USDT:USDT".toList <:+ s) ∨
      (("/USDT".toList <:+ s) ∧ ¬(":USDT".toList <:+: s)) ∨
      (("USDT".toList <:+ s) ∧ '/' ∉ s ∧ ':' ∉ s)) :
    "/USDT:USDT".toList <:+ convert_symbol_format TradingMode.futures s := by
  rcases h with h | ⟨h, hn⟩ | ⟨h, h1, h2⟩
  · rw [convert_futures_fix s h.isInfix]
    exact h
  · have hA : ¬("/USDT:USDT".toList <:+: s) := by
      intro hA
      exact hn ((by decide : (":USDT".toList <:+: "/USDT:USDT".toList)).trans hA)
    have e : convert_symbol_format TradingMode.futures s = s ++ ":USDT".toList := by
      unfold convert_symbol_format
      rw [if_neg hA, if_pos ⟨h.isInfix, hn⟩, if_pos rfl]
    rw [e]
    obtain ⟨t, ht⟩ := h
    rw [← ht, List.append_assoc]
    have e2 : "/USDT:USDT".toList = "/USDT".toList ++ ":USDT".toList := by decide
    rw [e2]
    exact List.suffix_append t _
  · rw [convert_bybit TradingMode.futures s h1 h2 h]
    simp only [if_pos rfl]
    exact List.suffix_append _ _

/-- Witness for the amended C8 at the concrete input `"BTCUSDT"`. -/
theorem c8_witness :
    "/USDT:USDT".toList <:+ convert_symbol_format TradingMode.futures "BTCUSDT".toList :=
  c8_futures_suffix_amended "BTCUSDT".toList (Or.inr (Or.inr (by decide)))

/-- C2, counterexample: with pair `"BTC/USDT:USDT"` and the single open
record for `"BTC/USDT"` with trade id 7, the resolver does not produce 7:
the slash-rewritten variant replaces `":USDT"` by `"/USDT"` and so is
`"BTC/USDT/USDT"`, which does not match the record. -/
theorem c2_counterexample :
    resolveTradeId "BTC/USDT:USDT".toList
        [⟨"BTC/USDT".toList, true, some 7⟩] ≠ some 7 := by decide

/-- C2, amended: on this input the resolver yields no trade id at all; its
candidate set is exactly the pair itself and the slash-rewritten variant
`"BTC/USDT/USDT"` (every `":USDT"` replaced by `"/USDT"`), neither of which
equals the record pair `"BTC/USDT"`. -/
theorem c2_resolver_on_example :
    resolveTradeId "BTC/USDT:USDT".toList
        [⟨"BTC/USDT".toList, true, some 7⟩] = none ∧
    candidate_pairs "BTC/USDT:USDT".toList =
      ["BTC/USDT:USDT".toList, "BTC/USDT/USDT".toList] := by decide

/-- C3, counterexample: get_trading_mode is a tool exposed at the tool
boundary, yet with a disconnected client it returns the static trading-mode
payload, not the not-connected error payload. -/
theorem c3_counterexample :
    (runTool TradingMode.futures Tool.get_trading_mode {} none).1 ≠
      Payload.err "Freqtrade client not connected" := by decide

/-- C3, amended: with a disconnected client every tool except
get_trading_mode (which never consults the client) immediately returns the
not-connected error payload and attempts no remote call. -/
theorem c3_disconnected_tools (mode : TradingMode) (t : Tool) (a : ToolArgs)
    (h : t ≠ Tool.get_trading_mode) :
    runTool mode t a none = (Payload.err "Freqtrade client not connected", []) := by
  cases t <;> first | rfl | exact absurd rfl h

/-- Witness for the amended C3 at a concrete tool and argument set. -/
theorem c3_witness :
    runTool TradingMode.futures Tool.fetch_bot_status {} none =
      (Payload.err "Freqtrade client not connected", []) :=
  c3_disconnected_tools TradingMode.futures Tool.fetch_bot_status {} (by decide)

/-- C10: place_trade is independent of the stake_amount argument; two
invocations differing only in stake_amount return identical payloads and
identical remote call traces, for every mode, client state and argument
set. -/
theorem c10_stake_amount_ignored (mode : TradingMode) (client : Option Client)
    (pair side : List Char) (price : Option Rat) (enter_tag : Option (List Char))
    (s1 s2 : Option Rat) :
    place_trade mode client pair side price enter_tag s1 =
      place_trade mode client pair side price enter_tag s2 := by
  cases client <;> rfl

/-- C5: for a separator-free candidate ending in USDT and a non-empty
fetched whitelist, the validator returns the candidate itself when it is
whitelisted verbatim, and otherwise checks the mode-primary canonical form
first, then the fallback forms in exactly the listed order (the other-mode
form, then the slash-less BASEUSDT:USDT alternate), returning the first
whitelisted form with true, and the primary form with false when none
match. -/
theorem c5_validator_ordered_fallbacks (mode : TradingMode) (c : Client) (symbol : List Char)
    (h1 : '/' ∉ symbol) (h2 : ':' ∉ symbol) (h3 : "USDT".toList <:+ symbol)
    (hne : fetched_whitelist c ≠ []) :
    validate_symbol_in_whitelist mode c symbol =
      (let wl := fetched_whitelist c
       let base := symbol.take (symbol.length - 4)
       let primary := if mode = TradingMode.futures then base ++ "/USDT:USDT".toList
         else base ++ "/USDT".toList
       let fb1 := if mode = TradingMode.futures then base ++ "/USDT".toList
         else base ++ "/USDT:USDT".toList
       let fb2 := base ++ "USDT:USDT".toList
       if symbol ∈ wl then (symbol, true)
       else if primary ∈ wl then (primary, true)
       else if fb1 ∈ wl then (fb1, true)
       else if fb2 ∈ wl then (fb2, true)
       else (primary, false)) := by
  unfold validate_symbol_in_whitelist
  by_cases hm : symbol ∈ fetched_whitelist c
  · rw [if_pos ⟨hne, hm⟩, if_pos hm]
  · rw [if_neg (fun hcon => hm hcon.2), if_pos ⟨h1, h2, h3⟩, if_pos hne, if_neg hm]
    cases mode with
    | futures =>
      rw [if_pos rfl, if_pos rfl, if_pos rfl]
      by_cases hp : symbol.take (symbol.length - 4) ++ "/USDT:USDT".toList ∈ fetched_whitelist c
      · rw [if_pos hp, if_pos hp]
      · rw [if_neg hp, if_neg hp]
        by_cases hf1 : symbol.take (symbol.length - 4) ++ "/USDT".toList ∈ fetched_whitelist c
        · have hfind : List.find? (fun f => decide (f ∈ fetched_whitelist c))
              [symbol.take (symbol.length - 4) ++ "/USDT".toList,
               symbol.take (symbol.length - 4) ++ "USDT:USDT".toList]
              = some (symbol.take (symbol.length - 4) ++ "/USDT".toList) :=
            List.find?_cons_of_pos _ (decide_eq_true hf1)
          rw [hfind, if_pos hf1]
        · by_cases hf2 : symbol.take (symbol.length - 4) ++ "USDT:USDT".toList ∈
              fetched_whitelist c
          · have hfind : List.find? (fun f => decide (f ∈ fetched_whitelist c))
                [symbol.take (symbol.length - 4) ++ "/USDT".toList,
                 symbol.take (symbol.length - 4) ++ "USDT:USDT".toList]
                = some (symbol.take (symbol.length - 4) ++ "USDT:USDT".toList) := by
              rw [List.find?_cons_of_neg _ (by simpa using hf1)]
              exact List.find?_cons_of_pos _ (decide_eq_true hf2)
            rw [hfind, if_neg hf1, if_pos hf2]
          · have hfind : List.find? (fun f => decide (f ∈ fetched_whitelist c))
                [symbol.take (symbol.length - 4) ++ "/USDT".toList,
                 symbol.take (symbol.length - 4) ++ "USDT:USDT".toList]
                = none := by
              rw [List.find?_cons_of_neg _ (by simpa using hf1),
                List.find?_cons_of_neg _ (by simpa using hf2), List.find?_nil]
            rw [hfind, if_neg hf1, if_neg hf2]
    | spot =>
      rw [if_neg (by decide : ¬(TradingMode.spot = TradingMode.futures)),
        if_neg (by decide : ¬(TradingMode.spot = TradingMode.futures)),
        if_neg (by decide : ¬(TradingMode.spot = TradingMode.futures))]
      by_cases hp : symbol.take (symbol.length - 4) ++ "/USDT".toList ∈ fetched_whitelist c
      · rw [if_pos hp, if_pos hp]
      · rw [if_neg hp, if_neg hp]
        by_cases hf1 : symbol.take (symbol.length - 4) ++ "/USDT:USDT".toList ∈
            fetched_whitelist c
        · have hfind : List.find? (fun f => decide (f ∈ fetched_whitelist c))
              [symbol.take (symbol.length - 4) ++ "/USDT:USDT".toList,
               symbol.take (symbol.length - 4) ++ "USDT:USDT".toList]
              = some (symbol.take (symbol.length - 4) ++ "/USDT:USDT".toList) :=
            List.find?_cons_of_pos _ (decide_eq_true hf1)
          rw [hfind, if_pos hf1]
        · by_cases hf2 : symbol.take (symbol.length - 4) ++ "USDT:USDT".toList ∈
              fetched_whitelist c
          · have hfind : List.find? (fun f => decide (f ∈ fetched_whitelist c))
                [symbol.take (symbol.length - 4) ++ "/USDT:USDT".toList,
                 symbol.take (symbol.length - 4) ++ "USDT:USDT".toList]
                = some (symbol.take (symbol.length - 4) ++ "USDT:USDT".toList) := by
              rw [List.find?_cons_of_neg _ (by simpa using hf1)]
              exact List.find?_cons_of_pos _ (decide_eq_true hf2)
            rw [hfind, if_neg hf1, if_pos hf2]
          · have hfind : List.find? (fun f => decide (f ∈ fetched_whitelist c))
                [symbol.take (symbol.length - 4) ++ "/USDT:USDT".toList,
                 symbol.take (symbol.length - 4) ++ "USDT:USDT".toList]
                = none := by
              rw [List.find?_cons_of_neg _ (by simpa using hf1),
                List.find?_cons_of_neg _ (by simpa using hf2), List.find?_nil]
            rw [hfind, if_neg hf1, if_neg hf2]

/-- Witness for C5 at the spec example: whitelist KMNO/USDT, futures mode,
candidate KMNOUSDT resolves through the first fallback form. -/
theorem c5_witness :
    validate_symbol_in_whitelist TradingMode.futures clientKMNO "KMNOUSDT".toList =
      ("KMNO/USDT".toList, true) := by
  have h := c5_validator_ordered_fallbacks TradingMode.futures clientKMNO "KMNOUSDT".toList
    (by decide) (by decide) (by decide) (by decide)
  rw [h]
  decide

/-- C6: when the whitelist fetch fails or yields no whitelist, validation is
advisory: for every input the validator reports valid and returns the
normalized primary form, which coincides with the symbol normalizer output. -/
theorem c6_validator_advisory_on_empty (mode : TradingMode) (c : Client) (symbol : List Char)
    (h : fetched_whitelist c = []) :
    validate_symbol_in_whitelist mode c symbol =
      (convert_symbol_format mode symbol, true) := by
  unfold validate_symbol_in_whitelist
  rw [h]
  rw [if_neg (fun hcon => hcon.1 rfl)]
  by_cases hb : '/' ∉ symbol ∧ ':' ∉ symbol ∧ ("USDT".toList <:+ symbol)
  · rw [if_pos hb, if_neg (fun hx => hx rfl : ¬(([] : List (List Char)) ≠ []))]
    rw [convert_bybit mode symbol hb.1 hb.2.1 hb.2.2]
  · rw [if_neg hb, if_neg (fun hx => hx rfl : ¬(([] : List (List Char)) ≠ []))]

/-- Witness for C6 at the spec example: empty whitelist, futures mode,
KMNOUSDT passes advisorily as KMNO/USDT:USDT. -/
theorem c6_witness :
    validate_symbol_in_whitelist TradingMode.futures clientBase "KMNOUSDT".toList =
      ("KMNO/USDT:USDT".toList, true) := by
  have h := c6_validator_advisory_on_empty TradingMode.futures clientBase "KMNOUSDT".toList
    (by decide)
  rw [h]
  decide

/-- Every outcome of the enter path is a non-validation payload. -/
theorem run_enter_not_validation (c : Client) (p : List Char) (d : EnterSide)
    (price : Option Rat) (tag : Option (List Char)) :
    isValidationError (run_enter c p d price tag).1 = false := by
  unfold run_enter
  dsimp only
  repeat' split
  all_goals rfl

/-- Every outcome of the exit path is a non-validation payload. -/
theorem run_exit_not_validation (c : Client) (p : List Char) :
    isValidationError (run_exit c p).1 = false := by
  unfold run_exit
  dsimp only
  repeat' split
  all_goals rfl

/-- Every outcome of the post-validation dispatch is a non-validation
payload. -/
theorem place_trade_exec_not_validation (c : Client) (p n : List Char)
    (price : Option Rat) (tag : Option (List Char)) :
    isValidationError (place_trade_exec c p n price tag).1 = false := by
  unfold place_trade_exec
  split_ifs <;>
    first
      | rfl
      | exact run_enter_not_validation _ _ _ _ _
      | exact run_exit_not_validation _ _

/-- C4, counterexample: a validation-failure return of place_trade is not
produced before any remote call is attempted; with a connected client and an
invalid side, the returned trace already contains the whitelist remote call
made by symbol validation. -/
theorem c4_counterexample :
    (place_trade TradingMode.futures (some clientBTC) "BTC/USDT:USDT".toList
        "frobnicate".toList none none none).1 = Payload.errInvalidSide ∧
    (place_trade TradingMode.futures (some clientBTC) "BTC/USDT:USDT".toList
        "frobnicate".toList none none none).2 ≠ [] := by decide

/-- C4, amended: whenever place_trade returns one of the three
local-validation error payloads (symbol not in whitelist, invalid side,
non-positive price), the only remote call attempted is the whitelist fetch
that validation itself performs; in particular no forceenter or forceexit
call is attempted. -/
theorem c4_validation_precedes_trade_calls (mode : TradingMode) (c : Client)
    (pair side : List Char) (price : Option Rat) (enter_tag : Option (List Char))
    (stake_amount : Option Rat)
    (h : isValidationError
      (place_trade mode (some c) pair side price enter_tag stake_amount).1 = true) :
    (place_trade mode (some c) pair side price enter_tag stake_amount).2 =
      [RemoteCall.whitelist] := by
  unfold place_trade at h ⊢
  dsimp only at h ⊢
  by_cases h1 : (validate_symbol_in_whitelist mode c pair).2 = false
  · rw [if_pos h1]
  · rw [if_neg h1] at h ⊢
    by_cases h2 : pyLower (pyStrip side) ∉ open_long_aliases ∧
        pyLower (pyStrip side) ∉ open_short_aliases ∧ pyLower (pyStrip side) ∉ close_aliases
    · rw [if_pos h2]
    · rw [if_neg h2] at h ⊢
      by_cases h3 : priceNonPositive price = true
      · rw [if_pos h3]
      · rw [if_neg h3] at h ⊢
        rw [place_trade_exec_not_validation] at h
        exact Bool.noConfusion h

/-- Witness for the amended C4: a symbol-not-in-whitelist failure whose
trace is exactly the single whitelist call. -/
theorem c4_witness :
    (place_trade TradingMode.futures (some clientETH) "XMONUSDT".toList
        "buy".toList none none none).2 = [RemoteCall.whitelist] :=
  c4_validation_precedes_trade_calls TradingMode.futures clientETH "XMONUSDT".toList
    "buy".toList none none none (by decide)

/-- A close alias is not an open alias. -/
theorem close_not_open (x : List Char) (h : x ∈ close_aliases) :
    x ∉ open_long_aliases ∧ x ∉ open_short_aliases := by
  simp only [close_aliases, List.mem_cons, List.not_mem_nil, or_false] at h
  rcases h with rfl | rfl | rfl | rfl | rfl <;> exact ⟨by decide, by decide⟩

/-- When every forceexit response is the quirk text, the exit path returns
the reclassified success payload after one forceexit call. -/
theorem run_exit_quirk (c : Client) (p : List Char) (r : String)
    (hfx : ∀ a, c.forceexit a = Except.ok r)
    (hq1 : "forceexit".toList <:+: pyLower r.toList)
    (hq2 : "invalid argument".toList <:+: pyLower r.toList) :
    run_exit c p = (Payload.exitOkInvalidArg p r, [RemoteCall.forceexit]) := by
  unfold run_exit
  dsimp only
  cases htid : resolve_from_status c p with
  | some id =>
      simp only [htid, hfx]
      rw [if_pos ⟨hq1, hq2⟩]
  | none =>
      simp only [htid, hfx]
      rw [if_pos ⟨hq1, hq2⟩]

/-- When every forceenter response contains the already-open text, the
enter path returns the success payload with already_open set. -/
theorem run_enter_open (c : Client) (p : List Char) (d : EnterSide) (price : Option Rat)
    (tag : Option (List Char)) (r : String)
    (hfe : ∀ p2 d2 pr t, c.forceenter p2 d2 pr t = Except.ok r)
    (ho : "already open".toList <:+: pyLower r.toList) :
    run_enter c p d price tag =
      (Payload.enterOk d p price
        (match tag with
         | some t => t
         | none => if price.isSome then "mcp-limit".toList else "mcp-market".toList) true r,
       [RemoteCall.forceenter]) := by
  unfold run_enter
  dsimp only
  simp only [hfe]
  rw [decide_eq_true ho]

/-- C9: the two known remote-service quirks are pattern-matched and
reclassified as success.  On the exit path, a forceexit response whose
lowered text contains both forceexit and invalid argument yields the ok
exit payload with the explanatory note; on the enter path, a forceenter
response whose lowered text contains already open yields the ok enter
payload with already_open true. -/
theorem c9_quirk_reclassified (mode : TradingMode) (c : Client) (pair side : List Char)
    (price : Option Rat) (enter_tag : Option (List Char)) (stake_amount : Option Rat)
    (r : String) :
    (c.has_forceexit = true →
     (validate_symbol_in_whitelist mode c pair).2 = true →
     pyLower (pyStrip side) ∈ close_aliases →
     priceNonPositive price = false →
     (∀ a, c.forceexit a = Except.ok r) →
     "forceexit".toList <:+: pyLower r.toList →
     "invalid argument".toList <:+: pyLower r.toList →
     (place_trade mode (some c) pair side price enter_tag stake_amount).1 =
       Payload.exitOkInvalidArg (validate_symbol_in_whitelist mode c pair).1 r) ∧
    (c.has_forceenter = true →
     (validate_symbol_in_whitelist mode c pair).2 = true →
     (pyLower (pyStrip side) ∈ open_long_aliases ∨
       pyLower (pyStrip side) ∈ open_short_aliases) →
     priceNonPositive price = false →
     (∀ p2 d2 pr t, c.forceenter p2 d2 pr t = Except.ok r) →
     "already open".toList <:+: pyLower r.toList →
     (place_trade mode (some c) pair side price enter_tag stake_amount).1 =
       Payload.enterOk
         (if pyLower (pyStrip side) ∈ open_long_aliases then EnterSide.long
          else EnterSide.short)
         (validate_symbol_in_whitelist mode c pair).1 price
         (match enter_tag with
          | some t => t
          | none => if price.isSome then "mcp-limit".toList else "mcp-market".toList)
         true r) := by
  constructor
  · intro hfe hval hclose hpr hfx hq1 hq2
    have hno := close_not_open _ hclose
    unfold place_trade
    dsimp only
    rw [if_neg (by simp [hval]), if_neg (fun hx => hx.2.2 hclose), if_neg (by simp [hpr])]
    unfold place_trade_exec
    rw [if_neg (fun hor => hor.elim hno.1 hno.2), if_pos hfe]
    rw [run_exit_quirk c _ r hfx hq1 hq2]
  · intro hfe hval hopen hpr hfenter ho
    unfold place_trade
    dsimp only
    rw [if_neg (by simp [hval]), if_neg (fun hx => hopen.elim hx.1 hx.2.1),
      if_neg (by simp [hpr])]
    unfold place_trade_exec
    rw [if_pos hopen, if_pos hfe]
    rw [run_enter_open c _ _ price enter_tag r hfenter ho]

/-- Witness for C9: both quirks at concrete clients, sides and responses. -/
theorem c9_witness :
    (place_trade TradingMode.futures (some clientQuirkExit) "BTC/USDT:USDT".toList
        "sell".toList none none none).1 =
      Payload.exitOkInvalidArg "BTC/USDT:USDT".toList "Forceexit failed: invalid argument" ∧
    (place_trade TradingMode.futures (some clientQuirkEnter) "BTC/USDT:USDT".toList
        "buy".toList none none none).1 =
      Payload.enterOk EnterSide.long "BTC/USDT:USDT".toList none "mcp-market".toList true
        "Position already open" :=
  ⟨(c9_quirk_reclassified TradingMode.futures clientQuirkExit "BTC/USDT:USDT".toList
      "sell".toList none none none "Forceexit failed: invalid argument").1
      rfl (by decide) (by decide) rfl (fun _ => rfl) (by decide) (by decide),
   (c9_quirk_reclassified TradingMode.futures clientQuirkEnter "BTC/USDT:USDT".toList
      "buy".toList none none none "Position already open").2
      rfl (by decide) (Or.inl (by decide)) rfl (fun _ _ _ _ => rfl) (by decide)⟩
